import Mathlib

/-!
Verification of the dispatch engine of the Telegram message-replication
service (bot_manager.py, message_processor.py).  Each definition is a
shallow embedding of the corresponding Python function; timestamps and
rates are modelled as rationals, Telegram ids as integers.
-/

/-- Priority levels of MessagePriority (bot_manager.py, lines 29-37). -/
inductive MessagePriority
  | URGENT
  | HIGH
  | NORMAL
  | LOW
deriving DecidableEq, Repr

/-- Numeric value of a priority level, as in the Python Enum. -/
def MessagePriority.value : MessagePriority → Nat
  | .URGENT => 4
  | .HIGH => 3
  | .NORMAL => 2
  | .LOW => 1

/-- QueuedMessage (bot_manager.py, lines 39-54).  The data payload is
irrelevant to the ordering claims and is omitted; all ordering-relevant
fields are kept. -/
structure QueuedMessage where
  priority : MessagePriority
  timestamp : ℚ
  pair_id : Int
  bot_index : Nat
  retry_count : Nat := 0
  max_retries : Nat := 3
deriving DecidableEq, Repr

/-- QueuedMessage.__lt__ (bot_manager.py, lines 51-54): smaller means
dequeued first by the min-heap of asyncio.PriorityQueue. -/
def QueuedMessage.lt (a b : QueuedMessage) : Bool :=
  if a.priority.value ≠ b.priority.value then
    decide (b.priority.value < a.priority.value)
  else
    decide (a.timestamp < b.timestamp)

theorem QueuedMessage.lt_iff (a b : QueuedMessage) :
    a.lt b = true ↔
      (b.priority.value < a.priority.value ∨
        (a.priority.value = b.priority.value ∧ a.timestamp < b.timestamp)) := by
  unfold QueuedMessage.lt
  by_cases h : a.priority.value = b.priority.value
  · simp [h]
  · simp [h]

theorem QueuedMessage.lt_self_eq_false (a : QueuedMessage) : a.lt a = false := by
  have h := QueuedMessage.lt_iff a a
  by_contra hne
  have hta : a.lt a = true := by
    cases hx : a.lt a
    · exact absurd hx hne
    · rfl
  rcases h.mp hta with h1 | ⟨_, h2⟩
  · exact Nat.lt_irrefl _ h1
  · exact absurd h2 (lt_irrefl a.timestamp)

theorem QueuedMessage.lt_asymm (a b : QueuedMessage) (h : a.lt b = true) :
    b.lt a = false := by
  rcases (QueuedMessage.lt_iff a b).mp h with h1 | ⟨h1, h2⟩
  · cases hx : b.lt a
    · rfl
    · rcases (QueuedMessage.lt_iff b a).mp hx with h3 | ⟨h3, _⟩
      · omega
      · omega
  · cases hx : b.lt a
    · rfl
    · rcases (QueuedMessage.lt_iff b a).mp hx with h3 | ⟨_, h4⟩
      · omega
      · exact absurd h2 (not_lt_of_gt h4)

theorem QueuedMessage.lt_neg_trans (q m x : QueuedMessage)
    (h1 : m.lt x = false) (h2 : q.lt m = false) : q.lt x = false := by
  cases hx : q.lt x
  · rfl
  · exfalso
    have hqx := (QueuedMessage.lt_iff q x).mp hx
    have hmx : ¬ (x.priority.value < m.priority.value ∨
        (m.priority.value = x.priority.value ∧ m.timestamp < x.timestamp)) := by
      intro hc
      rw [(QueuedMessage.lt_iff m x).symm.mp] at h1
      · exact absurd h1 (by simp)
      · exact hc
    have hqm : ¬ (m.priority.value < q.priority.value ∨
        (q.priority.value = m.priority.value ∧ q.timestamp < m.timestamp)) := by
      intro hc
      rw [(QueuedMessage.lt_iff q m).symm.mp] at h2
      · exact absurd h2 (by simp)
      · exact hc
    push_neg at hmx hqm
    rcases hqx with h3 | ⟨h3, h4⟩
    · have := hmx.1
      have := hqm.1
      omega
    · have hx1 := hmx.1
      have hq1 := hqm.1
      have hpm : m.priority.value = q.priority.value := by omega
      have hts1 := hmx.2 (by omega)
      have hts2 := hqm.2 (by omega)
      linarith

/-- Removal of the minimum element of the heap under QueuedMessage.lt:
this is what asyncio.PriorityQueue.get_nowait returns.  The list models
the multiset of queued items; the leftmost minimal element is taken. -/
def extractMin : List QueuedMessage → Option (QueuedMessage × List QueuedMessage)
  | [] => none
  | x :: xs =>
    match extractMin xs with
    | none => some (x, xs)
    | some (m, rest) =>
      if QueuedMessage.lt m x = true then some (m, x :: rest) else some (x, xs)

theorem extractMin_mem :
    ∀ (l : List QueuedMessage) (d : QueuedMessage) (r : List QueuedMessage),
      extractMin l = some (d, r) → d ∈ l := by
  intro l
  induction l with
  | nil => intro d r h; simp [extractMin] at h
  | cons x xs ih =>
    intro d r h
    simp only [extractMin] at h
    cases hx : extractMin xs with
    | none =>
      rw [hx] at h
      simp at h
      simp [h.1]
    | some p =>
      rw [hx] at h
      by_cases hlt : QueuedMessage.lt p.1 x = true
      · simp [hlt] at h
        have := ih p.1 p.2 (by rw [hx])
        right
        rw [← h.1]
        exact this
      · simp [hlt] at h
        simp [h.1]

theorem extractMin_minimal :
    ∀ (l : List QueuedMessage) (d : QueuedMessage) (r : List QueuedMessage),
      extractMin l = some (d, r) → ∀ q ∈ l, q.lt d = false := by
  intro l
  induction l with
  | nil => intro d r h; simp [extractMin] at h
  | cons x xs ih =>
    intro d r h
    simp only [extractMin] at h
    cases hx : extractMin xs with
    | none =>
      rw [hx] at h
      simp at h
      intro q hq
      cases hx2 : xs with
      | nil =>
        rw [hx2] at hq
        simp at hq
        rw [hq, ← h.1]
        exact QueuedMessage.lt_self_eq_false x
      | cons y ys =>
        rw [hx2] at hx
        simp [extractMin] at hx
        cases hy : extractMin ys with
        | none => rw [hy] at hx; simp at hx
        | some p =>
          rw [hy] at hx
          by_cases hlt : QueuedMessage.lt p.1 y = true
          · simp [hlt] at hx
          · simp [hlt] at hx
    | some p =>
      rw [hx] at h
      obtain ⟨m, rest⟩ := p
      have hmem := extractMin_mem xs m rest hx
      have hmin := ih m rest hx
      by_cases hlt : QueuedMessage.lt m x = true
      · simp [hlt] at h
        intro q hq
        rw [← h.1]
        rcases List.mem_cons.mp hq with hq1 | hq2
        · rw [hq1]; exact QueuedMessage.lt_asymm m x hlt
        · exact hmin q hq2
      · simp [hlt] at h
        intro q hq
        rw [← h.1]
        rcases List.mem_cons.mp hq with hq1 | hq2
        · rw [hq1]; exact QueuedMessage.lt_self_eq_false x
        · exact QueuedMessage.lt_neg_trans q m x
            (by cases hv : QueuedMessage.lt m x; rfl; exact absurd hv hlt)
            (hmin q hq2)

theorem extractMin_length :
    ∀ (l : List QueuedMessage) (d : QueuedMessage) (r : List QueuedMessage),
      extractMin l = some (d, r) → r.length + 1 = l.length := by
  intro l
  induction l with
  | nil => intro d r h; simp [extractMin] at h
  | cons x xs ih =>
    intro d r h
    simp only [extractMin] at h
    cases hx : extractMin xs with
    | none =>
      rw [hx] at h
      simp at h
      rw [← h.2]
      simp
    | some p =>
      rw [hx] at h
      by_cases hlt : QueuedMessage.lt p.1 x = true
      · simp [hlt] at h
        have := ih p.1 p.2 (by rw [hx])
        rw [← h.2]
        simp
        omega
      · simp [hlt] at h
        rw [← h.2]
        simp

theorem extractMin_isSome (l : List QueuedMessage) (h : l ≠ []) :
    (extractMin l).isSome = true := by
  cases l with
  | nil => exact absurd rfl h
  | cons x xs =>
    simp only [extractMin]
    cases hx : extractMin xs with
    | none => rfl
    | some p =>
      by_cases hlt : QueuedMessage.lt p.1 x = true
      · simp [hlt]
      · simp [hlt]

/-- State of the bounded priority queue (asyncio.PriorityQueue with
maxsize MESSAGE_QUEUE_SIZE, bot_manager.py line 94).  The list holds the
queued items. -/
structure PQState where
  items : List QueuedMessage
  maxsize : Nat
deriving DecidableEq, Repr

/-- BotManager._queue_message (bot_manager.py, lines 414-437): when the
queue is full, one item is removed with get_nowait (the heap minimum,
i.e. the front of the dequeue order) and the incoming item is then put.
Returns the new state and the dropped item, if any. -/
def queue_message (s : PQState) (m : QueuedMessage) : PQState × Option QueuedMessage :=
  if 0 < s.maxsize ∧ s.maxsize ≤ s.items.length then
    match extractMin s.items with
    | some (d, rest) => (⟨rest ++ [m], s.maxsize⟩, some d)
    | none => (⟨s.items ++ [m], s.maxsize⟩, none)
  else (⟨s.items ++ [m], s.maxsize⟩, none)

/-- C8: the dequeue order relation selects the strictly higher priority
level first, and among items of equal priority the earlier enqueue
timestamp first (FIFO within a level). -/
theorem dequeue_order_characterization (a b : QueuedMessage) :
    QueuedMessage.lt a b = true ↔
      (b.priority.value < a.priority.value ∨
        (a.priority.value = b.priority.value ∧ a.timestamp < b.timestamp)) :=
  QueuedMessage.lt_iff a b

/-- Concrete queued message: LOW priority, enqueued at time 0. -/
def msgLow0 : QueuedMessage :=
  { priority := .LOW, timestamp := 0, pair_id := 1, bot_index := 0 }

/-- Concrete queued message: URGENT priority, enqueued at time 5. -/
def msgUrgent5 : QueuedMessage :=
  { priority := .URGENT, timestamp := 5, pair_id := 1, bot_index := 0 }

/-- Concrete queued message: NORMAL priority, enqueued at time 6. -/
def msgNormal6 : QueuedMessage :=
  { priority := .NORMAL, timestamp := 6, pair_id := 1, bot_index := 0 }

/-- A full two-slot queue holding an old LOW item and a newer URGENT item. -/
def pqFull : PQState := ⟨[msgLow0, msgUrgent5], 2⟩

/-- C1 counterexample: with the queue full, the item removed by
get_nowait is the URGENT item enqueued at time 5, even though a LOW item
enqueued earlier (time 0) is still queued, so the removed item is not
the oldest queued item at any priority level. -/
theorem queue_full_drop_not_oldest :
    (queue_message pqFull msgNormal6).2 = some msgUrgent5 ∧
    msgLow0 ∈ pqFull.items ∧
    msgLow0.timestamp < msgUrgent5.timestamp := by
  refine ⟨by decide, by decide, by decide⟩

/-- C1 (amended): when the queue is full, the item removed to make room
is a front-of-dequeue-order item: no queued item precedes it under the
dequeue order (so it is the highest-priority item, earliest enqueued
within that level), it comes from the queued items (never the incoming
one), and the incoming item is admitted with the size unchanged. -/
theorem queue_full_drop_is_front (s : PQState) (m : QueuedMessage)
    (h1 : 0 < s.maxsize) (h2 : s.maxsize ≤ s.items.length) :
    ∃ d, (queue_message s m).2 = some d ∧ d ∈ s.items ∧
      (∀ q ∈ s.items, q.lt d = false) ∧
      m ∈ (queue_message s m).1.items ∧
      (queue_message s m).1.items.length = s.items.length := by
  have hne : s.items ≠ [] := by
    intro hnil
    rw [hnil] at h2
    simp at h2
    omega
  have hs := extractMin_isSome s.items hne
  cases hd : extractMin s.items with
  | none => rw [hd] at hs; simp at hs
  | some p =>
    obtain ⟨d, rest⟩ := p
    refine ⟨d, ?_, extractMin_mem _ _ _ hd, extractMin_minimal _ _ _ hd, ?_, ?_⟩
    · simp [queue_message, h1, h2, hd]
    · simp [queue_message, h1, h2, hd]
    · simp [queue_message, h1, h2, hd]
      have := extractMin_length _ _ _ hd
      omega

/-- C1 witness: the amended drop behaviour at a concrete full queue. -/
theorem queue_full_drop_is_front_witness :
    (0 < pqFull.maxsize ∧ pqFull.maxsize ≤ pqFull.items.length) ∧
    (∃ d, (queue_message pqFull msgNormal6).2 = some d ∧ d ∈ pqFull.items ∧
      (∀ q ∈ pqFull.items, q.lt d = false) ∧
      msgNormal6 ∈ (queue_message pqFull msgNormal6).1.items ∧
      (queue_message pqFull msgNormal6).1.items.length = pqFull.items.length) :=
  ⟨⟨by decide, by decide⟩,
   queue_full_drop_is_front pqFull msgNormal6 (by decide) (by decide)⟩

/-- BotMetrics (bot_manager.py, lines 56-66).  Rates and times are
modelled as rationals. -/
structure BotMetrics where
  messages_processed : Nat := 0
  success_rate : ℚ := 1
  avg_processing_time : ℚ := 1
  current_load : Nat := 0
  error_count : Nat := 0
  last_activity : ℚ := 0
  rate_limit_until : ℚ := 0
  consecutive_failures : Nat := 0
deriving DecidableEq, Repr

/-- BotMetrics.update_success_rate (bot_manager.py, lines 68-77):
exponential moving average with learning rate 0.1, and the
consecutive-failure counter. -/
def BotMetrics.update_success_rate (m : BotMetrics) (success : Bool) : BotMetrics :=
  let alpha : ℚ := 1/10
  let new_rate : ℚ := if success then 1 else 0
  { m with
    success_rate := alpha * new_rate + (1 - alpha) * m.success_rate,
    consecutive_failures := if success then 0 else m.consecutive_failures + 1 }

/-- A freshly created BotMetrics record (all dataclass defaults). -/
def initial_bot_metrics : BotMetrics := {}

/-- BotManager._check_rate_limit (bot_manager.py, lines 558-578): deny
while the flood-wait deadline is in the future; otherwise expire window
entries older than now - RATE_LIMIT_WINDOW from the front, deny when
RATE_LIMIT_MESSAGES entries remain, else admit and record now. -/
def check_rate_limit (m : BotMetrics) (rate_limiter : List ℚ) (now window : ℚ)
    (limit : Nat) : Bool × List ℚ :=
  if m.rate_limit_until > now then (false, rate_limiter)
  else
    let rl1 := rate_limiter.dropWhile (fun t => decide (t < now - window))
    if limit ≤ rl1.length then (false, rl1)
    else (true, rl1 ++ [now])

/-- Outcome of the type-dispatched processing inside
_process_queued_message, after the rate-limit gate: either the processor
returns a boolean, or one of the caught exception classes is raised. -/
inductive ProcessorOutcome
  | completes (success : Bool)
  | raisesRetryAfter (retry_after : ℚ)
  | raisesNetwork
  | raisesTelegram
  | raisesOther
deriving DecidableEq, Repr

/-- BotManager._process_queued_message (bot_manager.py, lines 484-556):
pair lookup failure returns False; a rate-limit denial returns False
with metrics untouched; otherwise the processor outcome decides the
result, RetryAfter sets rate_limit_until, the other caught exception
classes return False.  Returns (success, metrics, window). -/
def process_queued_message (m : BotMetrics) (rate_limiter : List ℚ) (now window : ℚ)
    (limit : Nat) (pair_found : Bool) (outcome : ProcessorOutcome)
    (processing_time : ℚ) : Bool × BotMetrics × List ℚ :=
  if pair_found = false then (false, m, rate_limiter)
  else
    let res := check_rate_limit m rate_limiter now window limit
    if res.1 = false then (false, m, res.2)
    else
      match outcome with
      | .completes s =>
        (s, { m with avg_processing_time :=
                1/10 * processing_time + (1 - 1/10) * m.avg_processing_time }, res.2)
      | .raisesRetryAfter ra => (false, { m with rate_limit_until := now + ra }, res.2)
      | .raisesNetwork => (false, m, res.2)
      | .raisesTelegram => (false, m, res.2)
      | .raisesOther => (false, m, res.2)

/-- One loop iteration of BotManager._message_worker (bot_manager.py,
lines 439-482) for a dequeued item on a running, unpaused system:
process the item, update the metrics of the target bot with the success
flag, and re-enqueue the item with an incremented retry count when it
failed and retries remain.  Returns (metrics, window, re-enqueued item). -/
def message_worker_step (m : BotMetrics) (rate_limiter : List ℚ) (now window : ℚ)
    (limit : Nat) (item : QueuedMessage) (pair_found : Bool)
    (outcome : ProcessorOutcome) (processing_time : ℚ) :
    BotMetrics × List ℚ × Option QueuedMessage :=
  let res := process_queued_message m rate_limiter now window limit pair_found
    outcome processing_time
  let success := res.1
  let m1 := res.2.1
  let m2 := { m1.update_success_rate success with
              messages_processed := m1.messages_processed + 1,
              last_activity := now }
  let requeued := if success = false ∧ item.retry_count < item.max_retries then
      some { item with retry_count := item.retry_count + 1 }
    else none
  (m2, res.2.2, requeued)

/-- Metrics of a bot currently under a flood-wait deadline (until time
10) with a perfect success rate. -/
def metricsFloodWait : BotMetrics := { rate_limit_until := 10 }

/-- C2 counterexample: at time 5 the rate limiter denies the bot
(rate_limit_until is 10), yet the worker loop updates the success-rate
EMA with success=False, changing it from 1 to 9/10, so the EMA is not
left unchanged by a rate-limit denial. -/
theorem rate_limit_denial_changes_ema :
    (check_rate_limit metricsFloodWait [] 5 60 30).1 = false ∧
    metricsFloodWait.success_rate = 1 ∧
    (message_worker_step metricsFloodWait [] 5 60 30 msgNormal6 true
        (.completes true) 1).1.success_rate = 9/10 := by
  refine ⟨by decide, by decide, ?_⟩
  simp [message_worker_step, process_queued_message, check_rate_limit,
    BotMetrics.update_success_rate, metricsFloodWait]
  norm_num

/-- C2 (amended): a rate-limit denial is counted as a failure for the
success-rate EMA: the worker reports the item failed and updates the
EMA with success=False, scaling it to 9/10 of its previous value, and
increments the consecutive-failure counter. -/
theorem rate_limit_denial_counted_as_failure
    (m : BotMetrics) (rl : List ℚ) (now window : ℚ) (limit : Nat)
    (item : QueuedMessage) (outcome : ProcessorOutcome) (pt : ℚ)
    (hdenied : (check_rate_limit m rl now window limit).1 = false) :
    (message_worker_step m rl now window limit item true outcome pt).1.success_rate
      = (1 - 1/10) * m.success_rate ∧
    (message_worker_step m rl now window limit item true outcome pt).1.consecutive_failures
      = m.consecutive_failures + 1 := by
  simp [message_worker_step, process_queued_message, hdenied,
    BotMetrics.update_success_rate]

/-- C2 witness: the amended behaviour at the concrete denied state. -/
theorem rate_limit_denial_counted_as_failure_witness :
    (check_rate_limit metricsFloodWait [] 5 60 30).1 = false ∧
    ((message_worker_step metricsFloodWait [] 5 60 30 msgNormal6 true
        (.completes true) 1).1.success_rate
      = (1 - 1/10) * metricsFloodWait.success_rate ∧
    (message_worker_step metricsFloodWait [] 5 60 30 msgNormal6 true
        (.completes true) 1).1.consecutive_failures
      = metricsFloodWait.consecutive_failures + 1) :=
  ⟨by decide,
   rate_limit_denial_counted_as_failure metricsFloodWait [] 5 60 30 msgNormal6
     (.completes true) 1 (by decide)⟩

theorem update_success_rate_mem_unit (m : BotMetrics) (s : Bool)
    (h0 : 0 ≤ m.success_rate) (h1 : m.success_rate ≤ 1) :
    0 ≤ (m.update_success_rate s).success_rate ∧
      (m.update_success_rate s).success_rate ≤ 1 := by
  cases s <;> simp [BotMetrics.update_success_rate] <;> constructor <;> nlinarith

/-- C9: one EMA update from a success rate in the unit interval stays in
the unit interval, and from the initial value 1.0 every sequence of
updates keeps the success-rate EMA in the unit interval. -/
theorem success_rate_ema_in_unit_interval :
    (∀ (m : BotMetrics) (s : Bool),
        0 ≤ m.success_rate → m.success_rate ≤ 1 →
        0 ≤ (m.update_success_rate s).success_rate ∧
          (m.update_success_rate s).success_rate ≤ 1) ∧
    (∀ outcomes : List Bool,
        0 ≤ (outcomes.foldl BotMetrics.update_success_rate
              initial_bot_metrics).success_rate ∧
          (outcomes.foldl BotMetrics.update_success_rate
              initial_bot_metrics).success_rate ≤ 1) := by
  constructor
  · exact update_success_rate_mem_unit
  · have key : ∀ (l : List Bool) (m : BotMetrics),
        0 ≤ m.success_rate → m.success_rate ≤ 1 →
        0 ≤ (l.foldl BotMetrics.update_success_rate m).success_rate ∧
          (l.foldl BotMetrics.update_success_rate m).success_rate ≤ 1 := by
      intro l
      induction l with
      | nil => intro m h0 h1; exact ⟨h0, h1⟩
      | cons s rest ih =>
        intro m h0 h1
        have hstep := update_success_rate_mem_unit m s h0 h1
        exact ih (m.update_success_rate s) hstep.1 hstep.2
    intro outcomes
    exact key outcomes initial_bot_metrics (by norm_num [initial_bot_metrics])
      (by norm_num [initial_bot_metrics])

/-- C9 witness: the bounds at a concrete metrics record and a concrete
update sequence. -/
theorem success_rate_ema_in_unit_interval_witness :
    (0 ≤ initial_bot_metrics.success_rate ∧ initial_bot_metrics.success_rate ≤ 1) ∧
    (0 ≤ (initial_bot_metrics.update_success_rate false).success_rate ∧
      (initial_bot_metrics.update_success_rate false).success_rate ≤ 1) :=
  ⟨⟨by norm_num [initial_bot_metrics], by norm_num [initial_bot_metrics]⟩,
   success_rate_ema_in_unit_interval.1 initial_bot_metrics false
     (by norm_num [initial_bot_metrics]) (by norm_num [initial_bot_metrics])⟩

/-- Per-bot step of BotManager._health_monitor (bot_manager.py, lines
586-597): a successful get_me probe resets consecutive_failures to 0, a
failing probe increments it. -/
def health_monitor_probe (m : BotMetrics) (probe_ok : Bool) : BotMetrics :=
  if probe_ok then { m with consecutive_failures := 0 }
  else { m with consecutive_failures := m.consecutive_failures + 1 }

/-- C10: update_success_rate resets consecutive_failures to 0 on
success and increments it by exactly 1 on failure; the worker calls it
for every processed item, so a rate-limit denial advances the same
counter, the one the health probe resets on a successful probe. -/
theorem consecutive_failures_tracking :
    (∀ m : BotMetrics, (m.update_success_rate true).consecutive_failures = 0) ∧
    (∀ m : BotMetrics,
        (m.update_success_rate false).consecutive_failures
          = m.consecutive_failures + 1) ∧
    (∀ (m : BotMetrics) (rl : List ℚ) (now window : ℚ) (limit : Nat)
        (item : QueuedMessage) (outcome : ProcessorOutcome) (pt : ℚ),
        (check_rate_limit m rl now window limit).1 = false →
        (message_worker_step m rl now window limit item true outcome
            pt).1.consecutive_failures = m.consecutive_failures + 1) ∧
    (∀ m : BotMetrics, (health_monitor_probe m true).consecutive_failures = 0) := by
  refine ⟨?_, ?_, ?_, ?_⟩
  · intro m; simp [BotMetrics.update_success_rate]
  · intro m; simp [BotMetrics.update_success_rate]
  · intro m rl now window limit item outcome pt hdenied
    simp [message_worker_step, process_queued_message, hdenied,
      BotMetrics.update_success_rate]
  · intro m; simp [health_monitor_probe]

/-- C10 witness: the counter updates at a concrete metrics record,
including the rate-limit-denial path through the worker. -/
theorem consecutive_failures_tracking_witness :
    (metricsFloodWait.update_success_rate true).consecutive_failures = 0 ∧
    (metricsFloodWait.update_success_rate false).consecutive_failures
      = metricsFloodWait.consecutive_failures + 1 ∧
    ((check_rate_limit metricsFloodWait [] 5 60 30).1 = false ∧
      (message_worker_step metricsFloodWait [] 5 60 30 msgNormal6 true
          (.completes true) 1).1.consecutive_failures
        = metricsFloodWait.consecutive_failures + 1) :=
  ⟨consecutive_failures_tracking.1 metricsFloodWait,
   consecutive_failures_tracking.2.1 metricsFloodWait,
   by decide,
   consecutive_failures_tracking.2.2.1 metricsFloodWait [] 5 60 30 msgNormal6
     (.completes true) 1 (by decide)⟩

/-- MessageMapping (the row fields the edit/delete paths read). -/
structure MessageMapping where
  source_message_id : Nat
  destination_message_id : Nat
  pair_id : Nat
deriving DecidableEq, Repr

/-- A call to BotSendAPI.edit_message_text as observed by the
destination chat. -/
structure EditCall where
  chat_id : Int
  message_id : Nat
  text : String
deriving DecidableEq, Repr

/-- Result of the edit_message_text call: success, BadRequest with
message is not modified, or another BadRequest. -/
inductive EditOutcome
  | ok
  | notModified
  | failsBadRequest
deriving DecidableEq, Repr

/-- MessageProcessor.process_message_edit (message_processor.py, lines
135-174).  The mapping-store lookup db_manager.get_message_mapping and
the content processing are abstracted as the parameters lookup and
content.  Returns the success flag and the list of edit calls issued. -/
def process_message_edit (lookup : Nat → Nat → Option MessageMapping)
    (event_id pid : Nat) (destination_chat_id : Int)
    (content : Option String) (editOutcome : EditOutcome) : Bool × List EditCall :=
  match lookup event_id pid with
  | none => (true, [])
  | some mm =>
    match content with
    | none => (false, [])
    | some txt =>
      let call : EditCall := ⟨destination_chat_id, mm.destination_message_id, txt⟩
      match editOutcome with
      | .ok => (true, [call])
      | .notModified => (true, [call])
      | .failsBadRequest => (false, [call])

/-- C6: an edit whose (source_message_id, pair_id) has no entry in the
mapping store makes no edit_message_text call, raises no error, and
returns success. -/
theorem edit_without_mapping_is_noop
    (lookup : Nat → Nat → Option MessageMapping) (event_id pid : Nat)
    (chat : Int) (content : Option String) (outcome : EditOutcome)
    (h : lookup event_id pid = none) :
    process_message_edit lookup event_id pid chat content outcome = (true, []) := by
  simp [process_message_edit, h]

/-- C6 witness: the no-op edit on an empty mapping store. -/
theorem edit_without_mapping_is_noop_witness :
    (fun (_ : Nat) (_ : Nat) => (none : Option MessageMapping)) 42 1 = none ∧
    process_message_edit (fun _ _ => none) 42 1 (-1002) (some "hi") .ok
      = (true, []) :=
  ⟨rfl, edit_without_mapping_is_noop (fun _ _ => none) 42 1 (-1002) (some "hi") .ok rfl⟩

/-- A call to BotSendAPI.delete_message as observed by the destination
chat. -/
structure DeleteCall where
  chat_id : Int
  message_id : Nat
deriving DecidableEq, Repr

/-- Result of a delete_message call: success, BadRequest containing
message to delete not found (swallowed), or another BadRequest (logged,
the loop continues). -/
inductive DeleteResponse
  | ok
  | notFound
  | otherBadRequest
deriving DecidableEq, Repr

/-- Loop body of MessageProcessor.process_message_delete for one deleted
source id: a mapped id issues a delete call and counts it when the call
succeeds; an unmapped id is skipped. -/
def delete_step (lookup : Nat → Nat → Option MessageMapping) (pid : Nat)
    (chat : Int) (response : Nat → DeleteResponse)
    (acc : List DeleteCall × Nat) (message_id : Nat) : List DeleteCall × Nat :=
  match lookup message_id pid with
  | none => acc
  | some mm =>
    let c : DeleteCall := ⟨chat, mm.destination_message_id⟩
    match response mm.destination_message_id with
    | .ok => (acc.1 ++ [c], acc.2 + 1)
    | .notFound => (acc.1 ++ [c], acc.2)
    | .otherBadRequest => (acc.1 ++ [c], acc.2)

/-- MessageProcessor.process_message_delete (message_processor.py, lines
176-206): iterate the deleted-id batch, then add the count of successful
deletions to the pair counter deletes_synced when positive.  Returns the
success flag, the delete calls issued, and the new deletes_synced. -/
def process_message_delete (lookup : Nat → Nat → Option MessageMapping)
    (pid : Nat) (destination_chat_id : Int) (deleted_ids : List Nat)
    (response : Nat → DeleteResponse) (deletes_synced : Nat) :
    Bool × List DeleteCall × Nat :=
  let res := deleted_ids.foldl (delete_step lookup pid destination_chat_id response) ([], 0)
  let ds := if 0 < res.2 then deletes_synced + res.2 else deletes_synced
  (true, res.1, ds)

/-- Whether the deletion of one source id goes through: it is mapped and
the delete call on the mapped destination id succeeds. -/
def delete_succeeds (lookup : Nat → Nat → Option MessageMapping) (pid : Nat)
    (response : Nat → DeleteResponse) (mid : Nat) : Bool :=
  match lookup mid pid with
  | some mm => decide (response mm.destination_message_id = DeleteResponse.ok)
  | none => false

theorem foldl_delete_step (lookup : Nat → Nat → Option MessageMapping) (pid : Nat)
    (chat : Int) (response : Nat → DeleteResponse) :
    ∀ (ids : List Nat) (calls : List DeleteCall) (cnt : Nat),
      ids.foldl (delete_step lookup pid chat response) (calls, cnt)
        = (calls ++ ids.filterMap (fun mid => (lookup mid pid).map
              fun mm => (⟨chat, mm.destination_message_id⟩ : DeleteCall)),
           cnt + ids.countP (delete_succeeds lookup pid response)) := by
  intro ids
  induction ids with
  | nil => intro calls cnt; simp
  | cons mid rest ih =>
    intro calls cnt
    simp only [List.foldl_cons, List.filterMap_cons, List.countP_cons]
    cases hl : lookup mid pid with
    | none =>
      have hstep : delete_step lookup pid chat response (calls, cnt) mid
          = (calls, cnt) := by
        simp [delete_step, hl]
      have hsucc : delete_succeeds lookup pid response mid = false := by
        simp [delete_succeeds, hl]
      rw [hstep, ih]
      simp [hsucc]
    | some mm =>
      cases hr : response mm.destination_message_id with
      | ok =>
        have hstep : delete_step lookup pid chat response (calls, cnt) mid
            = (calls ++ [⟨chat, mm.destination_message_id⟩], cnt + 1) := by
          simp [delete_step, hl, hr]
        have hsucc : delete_succeeds lookup pid response mid = true := by
          simp [delete_succeeds, hl, hr]
        rw [hstep, ih]
        simp [hsucc]
        omega
      | notFound =>
        have hstep : delete_step lookup pid chat response (calls, cnt) mid
            = (calls ++ [⟨chat, mm.destination_message_id⟩], cnt) := by
          simp [delete_step, hl, hr]
        have hsucc : delete_succeeds lookup pid response mid = false := by
          simp [delete_succeeds, hl, hr]
        rw [hstep, ih]
        simp [hsucc]
      | otherBadRequest =>
        have hstep : delete_step lookup pid chat response (calls, cnt) mid
            = (calls ++ [⟨chat, mm.destination_message_id⟩], cnt) := by
          simp [delete_step, hl, hr]
        have hsucc : delete_succeeds lookup pid response mid = false := by
          simp [delete_succeeds, hl, hr]
        rw [hstep, ih]
        simp [hsucc]

/-- C7: the delete batch issues exactly one delete call on the mapped
destination id for each deleted id that has a mapping, silently ignores
unmapped ids, swallows not-found responses, adds the number of
successful deletions to deletes_synced, and returns success. -/
theorem delete_batch_characterization
    (lookup : Nat → Nat → Option MessageMapping) (pid : Nat) (chat : Int)
    (ids : List Nat) (response : Nat → DeleteResponse) (ds : Nat) :
    (process_message_delete lookup pid chat ids response ds).1 = true ∧
    (process_message_delete lookup pid chat ids response ds).2.1
      = ids.filterMap (fun mid => (lookup mid pid).map
          fun mm => (⟨chat, mm.destination_message_id⟩ : DeleteCall)) ∧
    (process_message_delete lookup pid chat ids response ds).2.2
      = ds + ids.countP (delete_succeeds lookup pid response) := by
  have hfold := foldl_delete_step lookup pid chat response ids [] 0
  refine ⟨rfl, ?_, ?_⟩
  · simp [process_message_delete, hfold]
  · simp only [process_message_delete, hfold]
    split <;> omega

/-- UTF-16 code-unit length of a text, as computed by
len(text.encode(utf-16-le)) // 2: one unit for a scalar value below
0x10000, two units (a surrogate pair) otherwise. -/
def utf16Len (s : String) : Nat :=
  s.data.foldl (fun n c => n + (if c.toNat < 65536 then 1 else 2)) 0

/-- Telethon formatting-entity classes as matched by
_convert_entities_for_telegram. -/
inductive TLEntityType
  | bold
  | italic
  | code
  | pre
  | strike
  | underline
  | spoiler
  | url
  | textUrl
  | mention
  | mentionName
  | customEmoji
  | hashtag
  | cashtag
  | botCommand
  | email
  | phone
  | unknown
deriving DecidableEq, Repr

/-- A Telethon entity: offset and length in UTF-16 units plus the
optional payload attributes the conversion reads. -/
structure TLEntity where
  etype : TLEntityType
  offset : Int
  length : Int
  url : Option String := none
  user_id : Option Nat := none
  language : Option String := none
  document_id : Option Nat := none
deriving DecidableEq, Repr

/-- python-telegram-bot MessageEntity type tags used by the converter. -/
inductive TGEntityType
  | BOLD
  | ITALIC
  | CODE
  | PRE
  | STRIKETHROUGH
  | UNDERLINE
  | SPOILER
  | URL
  | TEXT_LINK
  | MENTION
  | TEXT_MENTION
  | CUSTOM_EMOJI
  | HASHTAG
  | CASHTAG
  | BOT_COMMAND
  | EMAIL
  | PHONE_NUMBER
deriving DecidableEq, Repr

/-- A converted MessageEntity with the payload fields carried over. -/
structure MessageEntity where
  etype : TGEntityType
  offset : Int
  length : Int
  url : Option String := none
  user : Option Nat := none
  language : Option String := none
  custom_emoji_id : Option String := none
deriving DecidableEq, Repr

/-- Conversion of one Telethon entity
(MessageProcessor._convert_entities_for_telegram, message_processor.py,
lines 689-769): entities with offset < 0 or length <= 0 are skipped,
each known class maps to its Telegram tag carrying url, user, language
or custom_emoji_id, a TextUrl without url, a MentionName without user id
and a CustomEmoji without document id are skipped (Python truthiness:
empty string and 0 are falsy), unknown classes are skipped. -/
def convert_entity (e : TLEntity) : Option MessageEntity :=
  if e.offset < 0 ∨ e.length ≤ 0 then none
  else
    match e.etype with
    | .bold => some { etype := .BOLD, offset := e.offset, length := e.length }
    | .italic => some { etype := .ITALIC, offset := e.offset, length := e.length }
    | .code => some { etype := .CODE, offset := e.offset, length := e.length }
    | .pre => some { etype := .PRE, offset := e.offset, length := e.length,
                     language := e.language }
    | .strike => some { etype := .STRIKETHROUGH, offset := e.offset, length := e.length }
    | .underline => some { etype := .UNDERLINE, offset := e.offset, length := e.length }
    | .spoiler => some { etype := .SPOILER, offset := e.offset, length := e.length }
    | .url => some { etype := .URL, offset := e.offset, length := e.length }
    | .textUrl =>
      match e.url with
      | some u =>
        if u = "" then none
        else some { etype := .TEXT_LINK, offset := e.offset, length := e.length,
                    url := some u }
      | none => none
    | .mention => some { etype := .MENTION, offset := e.offset, length := e.length }
    | .mentionName =>
      match e.user_id with
      | some uid =>
        if uid = 0 then none
        else some { etype := .TEXT_MENTION, offset := e.offset, length := e.length,
                    user := some uid }
      | none => none
    | .customEmoji =>
      match e.document_id with
      | some did =>
        if did = 0 then none
        else some { etype := .CUSTOM_EMOJI, offset := e.offset, length := e.length,
                    custom_emoji_id := some (toString did) }
      | none => none
    | .hashtag => some { etype := .HASHTAG, offset := e.offset, length := e.length }
    | .cashtag => some { etype := .CASHTAG, offset := e.offset, length := e.length }
    | .botCommand => some { etype := .BOT_COMMAND, offset := e.offset, length := e.length }
    | .email => some { etype := .EMAIL, offset := e.offset, length := e.length }
    | .phone => some { etype := .PHONE_NUMBER, offset := e.offset, length := e.length }
    | .unknown => none

/-- The full conversion loop over a Telethon entity list. -/
def convert_entities_for_telegram (l : List TLEntity) : List MessageEntity :=
  l.filterMap convert_entity

theorem convert_entity_offsets (a : TLEntity) (e : MessageEntity)
    (h : convert_entity a = some e) :
    e.offset = a.offset ∧ e.length = a.length ∧ 0 ≤ a.offset ∧ 0 < a.length := by
  by_cases hb : a.offset < 0 ∨ a.length ≤ 0
  · simp [convert_entity, hb] at h
  · have hb2 : 0 ≤ a.offset ∧ 0 < a.length := by push_neg at hb; exact hb
    simp only [convert_entity, if_neg hb] at h
    repeat' split at h
    all_goals try simp at h
    all_goals subst h
    all_goals exact ⟨rfl, rfl, hb2.1, hb2.2⟩

theorem convert_entities_mem (l : List TLEntity) (e : MessageEntity)
    (h : e ∈ convert_entities_for_telegram l) : 0 ≤ e.offset ∧ 0 < e.length := by
  unfold convert_entities_for_telegram at h
  rw [List.mem_filterMap] at h
  obtain ⟨a, _, ha⟩ := h
  have := convert_entity_offsets a e ha
  constructor
  · rw [this.1]; exact this.2.2.1
  · rw [this.2.1]; exact this.2.2.2

/-- Loop body of the bounds validation in
_validate_and_convert_entities (message_processor.py, lines 522-556):
skip invalid offsets and lengths, skip entities starting at or beyond
the text end, truncate entities reaching past the end, keep the rest. -/
def validate_step (text_length : Int) (acc : List MessageEntity)
    (e : MessageEntity) : List MessageEntity :=
  if e.offset < 0 ∨ e.length ≤ 0 then acc
  else if text_length ≤ e.offset then acc
  else if text_length < e.offset + e.length then
    (if 0 < text_length - e.offset then
      acc ++ [{ e with length := text_length - e.offset }]
    else acc)
  else acc ++ [e]

/-- Comparison used for the final sort by entity offset. -/
def entity_le (a b : MessageEntity) : Bool := decide (a.offset ≤ b.offset)

/-- MessageProcessor._validate_and_convert_entities
(message_processor.py, lines 509-565): empty text or entity list yields
[], otherwise convert, validate each entity against the UTF-16 text
length, and sort the survivors by offset. -/
def validate_and_convert_entities (text : String) (entities : List TLEntity) :
    List MessageEntity :=
  if text = "" ∨ entities = [] then []
  else
    let text_length : Int := (utf16Len text : Int)
    let converted := convert_entities_for_telegram entities
    let valid := converted.foldl (validate_step text_length) []
    valid.mergeSort entity_le

/-- One-shot description of the validation loop: drop the entity when
its offset or length is invalid or it starts at or past the end of the
text, otherwise clamp its length to the residual text length. -/
def validate_adjust (text_length : Int) (e : MessageEntity) : Option MessageEntity :=
  if e.offset < 0 ∨ e.length ≤ 0 ∨ text_length ≤ e.offset then none
  else some { e with length := min e.length (text_length - e.offset) }

theorem validate_adjust_sound (L : Int) (a e : MessageEntity)
    (h : validate_adjust L a = some e) :
    0 ≤ e.offset ∧ 0 < e.length ∧ e.offset + e.length ≤ L := by
  unfold validate_adjust at h
  split at h
  · simp at h
  · rename_i hc
    push_neg at hc
    have h2 := Option.some.inj h
    subst h2
    refine ⟨by simp; omega, by simp; omega, by simp; omega⟩

theorem foldl_validate_step (L : Int) :
    ∀ (l : List MessageEntity) (acc : List MessageEntity),
      l.foldl (validate_step L) acc = acc ++ l.filterMap (validate_adjust L) := by
  intro l
  induction l with
  | nil => intro acc; simp
  | cons e rest ih =>
    intro acc
    simp only [List.foldl_cons, List.filterMap_cons]
    by_cases h1 : e.offset < 0 ∨ e.length ≤ 0
    · have hstep : validate_step L acc e = acc := by simp [validate_step, h1]
      have hadj : validate_adjust L e = none := by
        simp only [validate_adjust]
        rcases h1 with h1 | h1 <;> simp [h1]
      rw [hstep, hadj, ih]
    · push_neg at h1
      have hno : ¬(e.offset < 0 ∨ e.length ≤ 0) := by omega
      by_cases h2 : L ≤ e.offset
      · have hstep : validate_step L acc e = acc := by
          simp [validate_step, h2]
        have hadj : validate_adjust L e = none := by simp [validate_adjust, h2]
        rw [hstep, hadj, ih]
      · push_neg at h2
        have hno2 : ¬(L ≤ e.offset) := by omega
        have hnoadj : ¬(e.offset < 0 ∨ e.length ≤ 0 ∨ L ≤ e.offset) := by omega
        by_cases h3 : L < e.offset + e.length
        · have hpos : 0 < L - e.offset := by omega
          have hstep : validate_step L acc e
              = acc ++ [{ e with length := L - e.offset }] := by
            simp [validate_step, hno, hno2, h3, hpos]
          have hadj : validate_adjust L e = some { e with length := L - e.offset } := by
            have hmin : min e.length (L - e.offset) = L - e.offset :=
              min_eq_right (by omega)
            simp [validate_adjust, hnoadj, hmin]
          rw [hstep, hadj, ih]
          simp
        · push_neg at h3
          have hno3 : ¬(L < e.offset + e.length) := by omega
          have hstep : validate_step L acc e = acc ++ [e] := by
            simp [validate_step, hno, hno2, hno3]
          have hadj : validate_adjust L e = some e := by
            have hmin : min e.length (L - e.offset) = e.length :=
              min_eq_left (by omega)
            simp [validate_adjust, hnoadj, hmin]
          rw [hstep, hadj, ih]
          simp

theorem entity_le_trans (a b c : MessageEntity)
    (h1 : entity_le a b = true) (h2 : entity_le b c = true) :
    entity_le a c = true := by
  simp [entity_le] at h1 h2 ⊢
  omega

theorem entity_le_total (a b : MessageEntity) :
    (entity_le a b || entity_le b a) = true := by
  simp [entity_le]
  omega

/-- C3: every entity surviving validation satisfies 0 <= offset,
0 < length and offset + length <= utf16_len(text); the output is sorted
by offset ascending; and the output is exactly, up to the sort, the
converted entities with the invalid ones (offset < 0, length <= 0, or
offset >= utf16_len(text)) dropped and over-long ones clamped to
utf16_len(text) - offset. -/
theorem validated_entities_within_bounds (text : String) (entities : List TLEntity) :
    (∀ e ∈ validate_and_convert_entities text entities,
        0 ≤ e.offset ∧ 0 < e.length ∧
          e.offset + e.length ≤ (utf16Len text : Int)) ∧
    List.Pairwise (fun a b => a.offset ≤ b.offset)
      (validate_and_convert_entities text entities) ∧
    (validate_and_convert_entities text entities).Perm
      ((convert_entities_for_telegram entities).filterMap
        (validate_adjust (utf16Len text))) := by
  by_cases hguard : text = "" ∨ entities = []
  · have hout : validate_and_convert_entities text entities = [] := by
      unfold validate_and_convert_entities
      rw [if_pos hguard]
    have hnil : (convert_entities_for_telegram entities).filterMap
        (validate_adjust (utf16Len text)) = [] := by
      rcases hguard with hg | hg
      · rw [List.filterMap_eq_nil_iff]
        intro a ha
        have hmem := convert_entities_mem entities a ha
        have hlen : (utf16Len text : Int) = 0 := by rw [hg]; rfl
        unfold validate_adjust
        rw [if_pos]
        right; right
        omega
      · rw [hg]
        rfl
    refine ⟨?_, ?_, ?_⟩
    · intro e he
      rw [hout] at he
      simp at he
    · rw [hout]
      exact List.Pairwise.nil
    · rw [hout, hnil]
  · have hout : validate_and_convert_entities text entities
        = ((convert_entities_for_telegram entities).filterMap
            (validate_adjust (utf16Len text))).mergeSort entity_le := by
      unfold validate_and_convert_entities
      rw [if_neg hguard]
      show (List.foldl (validate_step _) [] _).mergeSort entity_le = _
      rw [foldl_validate_step]
      rw [List.nil_append]
    refine ⟨?_, ?_, ?_⟩
    · intro e he
      rw [hout] at he
      have hmem : e ∈ (convert_entities_for_telegram entities).filterMap
          (validate_adjust (utf16Len text)) :=
        (List.mergeSort_perm _ entity_le).subset he
      rw [List.mem_filterMap] at hmem
      obtain ⟨a, _, hadj⟩ := hmem
      exact validate_adjust_sound _ a e hadj
    · rw [hout]
      have hs := @List.sorted_mergeSort MessageEntity entity_le
        (fun a b c => entity_le_trans a b c) (fun a b => entity_le_total a b)
        ((convert_entities_for_telegram entities).filterMap
          (validate_adjust (utf16Len text)))
      exact hs.imp (fun h => by simpa [entity_le] using h)
    · rw [hout]
      exact List.mergeSort_perm _ entity_le

/-- A Telethon Bold entity spanning 5 UTF-16 units from offset 0. -/
def tlBold05 : TLEntity := { etype := .bold, offset := 0, length := 5 }

/-- The clamped BOLD entity produced for the two-unit text ab. -/
def tgBold02 : MessageEntity := { etype := .BOLD, offset := 0, length := 2 }

/-- C3 witness: validating a Bold entity of length 5 against the text
ab clamps it to length 2 and the bounds hold for it. -/
theorem validated_entities_within_bounds_witness :
    tgBold02 ∈ validate_and_convert_entities "ab" [tlBold05] ∧
    (0 ≤ tgBold02.offset ∧ 0 < tgBold02.length ∧
      tgBold02.offset + tgBold02.length ≤ (utf16Len "ab" : Int)) := by
  have hperm := (validated_entities_within_bounds "ab" [tlBold05]).2.2
  have hmem : tgBold02 ∈ (convert_entities_for_telegram [tlBold05]).filterMap
      (validate_adjust (utf16Len "ab")) := by decide
  have hmem2 := hperm.mem_iff.mpr hmem
  exact ⟨hmem2, (validated_entities_within_bounds "ab" [tlBold05]).1 tgBold02 hmem2⟩

/-- Length-limit handling of MessageProcessor._process_message_content
(message_processor.py, lines 208-236), after the external text filter
has produced filtered_text and processed_entities: drop the message
when a positive min_message_length is not reached; when a positive
max_message_length is exceeded, cut the text to max_message_length
characters, append three dots, and keep only the entities with
offset + length <= max_message_length. -/
def process_message_content (filtered_text : String)
    (processed_entities : List TLEntity) (min_length max_length : Nat) :
    Option String × List TLEntity :=
  if 0 < min_length ∧ filtered_text.length < min_length then (none, [])
  else if 0 < max_length ∧ max_length < filtered_text.length then
    (some (String.append (filtered_text.take max_length) "..."),
     processed_entities.filter (fun e => decide (e.offset + e.length ≤ (max_length : Int))))
  else (some filtered_text, processed_entities)

/-- The Bold entity of the C4 scenario: offset 0, length 8. -/
def tlBold08 : TLEntity := { etype := .bold, offset := 0, length := 8 }

/-- C4 counterexample: with max_message_length 5 and text abcdefgh with
a Bold entity of offset 0 and length 8, the output text is abcde... as
claimed, but the entity list is empty: the Bold entity is dropped by the
filter offset + length <= max_message_length, not kept with length 5. -/
theorem truncation_drops_overlong_entity :
    (process_message_content "abcdefgh" [tlBold08] 0 5).1 = some "abcde..." ∧
    (process_message_content "abcdefgh" [tlBold08] 0 5).2 = [] ∧
    ∀ e ∈ (process_message_content "abcdefgh" [tlBold08] 0 5).2, e.length ≠ 5 := by
  refine ⟨by decide, by decide, ?_⟩
  intro e he
  have h2 : (process_message_content "abcdefgh" [tlBold08] 0 5).2 = [] := by decide
  rw [h2] at he
  simp at he

/-- C4 (amended): when max_message_length is positive and exceeded, the
output text is the first max_message_length characters followed by
three dots, and the output entities are exactly the input entities with
offset + length <= max_message_length: an entity spanning past the cut
is dropped entirely, not truncated. -/
theorem truncation_behaviour (text : String) (ents : List TLEntity)
    (minL maxL : Nat) (hmax : 0 < maxL) (hlen : maxL < text.length)
    (hmin : minL ≤ text.length) :
    process_message_content text ents minL maxL
      = (some (String.append (text.take maxL) "..."),
         ents.filter (fun e => decide (e.offset + e.length ≤ (maxL : Int)))) := by
  have h1 : ¬(0 < minL ∧ text.length < minL) := by omega
  simp [process_message_content, h1, hmax, hlen]

/-- C4 witness: the amended behaviour at the concrete C4 scenario. -/
theorem truncation_behaviour_witness :
    (0 < 5 ∧ 5 < "abcdefgh".length ∧ 0 ≤ "abcdefgh".length) ∧
    process_message_content "abcdefgh" [tlBold08] 0 5
      = (some (String.append ("abcdefgh".take 5) "..."),
         [tlBold08].filter (fun e => decide (e.offset + e.length ≤ (5 : Int)))) :=
  ⟨⟨by decide, by decide, by decide⟩,
   truncation_behaviour "abcdefgh" [tlBold08] 0 5 (by decide) (by decide) (by decide)⟩

/-- The transport behaviour of one send attempt inside
MessageProcessor._send_message. -/
inductive TransportResult
  | sent (message_id : Nat)
  | raisesForbidden
  | raisesBadRequest
  | raisesOther
deriving DecidableEq, Repr

/-- Error handling of MessageProcessor._send_message
(message_processor.py, lines 359-507): a successful send returns the
message; Forbidden is caught, logged at error, and None is returned;
BadRequest triggers the degraded fallback send whose result is the
fallback parameter; any other exception returns None. -/
def send_message (transport : TransportResult) (fallback : Option Nat) : Option Nat :=
  match transport with
  | .sent mid => some mid
  | .raisesForbidden => none
  | .raisesBadRequest => fallback
  | .raisesOther => none

/-- Media gate outcome inside process_new_message: no media on the
event, media blocked by the gate, or media available. -/
inductive MediaResult
  | noMedia
  | blocked
  | available
deriving DecidableEq, Repr

/-- MessageProcessor.process_new_message (message_processor.py, lines
48-133), abstracted over the filter decision, the processed content,
the media gate and the transport: a filtered message succeeds without a
send; missing content fails; blocked media succeeds without a send;
otherwise the message is sent, and success means a message was
returned (and its id is mapped).  Returns (success, mapped id). -/
def process_new_message (should_copy : Bool) (content : Option String)
    (media : MediaResult) (transport : TransportResult) (fallback : Option Nat) :
    Bool × Option Nat :=
  if should_copy = false then (true, none)
  else
    match content with
    | none => (false, none)
    | some _ =>
      match media with
      | .blocked => (true, none)
      | _ =>
        match send_message transport fallback with
        | some mid => (true, some mid)
        | none => (false, none)

/-- C5 counterexample: a send that raises Forbidden makes
process_new_message fail, and the worker then re-enqueues the item with
retry count 1: the item is retried, not dropped. -/
theorem forbidden_send_is_retried :
    (process_new_message true (some "hello") .noMedia .raisesForbidden none).1
      = false ∧
    (message_worker_step initial_bot_metrics [] 5 60 30 msgNormal6 true
        (.completes (process_new_message true (some "hello") .noMedia
            .raisesForbidden none).1) 1).2.2
      = some { msgNormal6 with retry_count := 1 } := by
  refine ⟨by decide, by decide⟩

theorem process_completes_false_fails (m : BotMetrics) (rl : List ℚ)
    (now window : ℚ) (limit : Nat) (pt : ℚ) :
    (process_queued_message m rl now window limit true (.completes false) pt).1
      = false := by
  unfold process_queued_message
  by_cases hc : (check_rate_limit m rl now window limit).1 = false
  · simp [hc]
  · have hc2 : (check_rate_limit m rl now window limit).1 = true := by
      cases hv : (check_rate_limit m rl now window limit).1
      · exact absurd hv hc
      · rfl
    simp [hc2]

/-- C5 (amended): Forbidden is caught inside _send_message and logged,
the processing of the item reports failure with no message mapped, and
the worker then re-enqueues the item with its retry count incremented
whenever retries remain (max_retries, default 3): the item is retried
like any other failure, not treated as terminal. -/
theorem forbidden_send_fails_and_requeues
    (content_text : String) (fallback : Option Nat) (media : MediaResult)
    (m : BotMetrics) (rl : List ℚ) (now window : ℚ) (limit : Nat)
    (item : QueuedMessage) (pt : ℚ)
    (hmedia : media ≠ .blocked)
    (hretry : item.retry_count < item.max_retries) :
    process_new_message true (some content_text) media .raisesForbidden fallback
      = (false, none) ∧
    (message_worker_step m rl now window limit item true
        (.completes (process_new_message true (some content_text) media
            .raisesForbidden fallback).1) pt).2.2
      = some { item with retry_count := item.retry_count + 1 } := by
  have hsend : process_new_message true (some content_text) media
      .raisesForbidden fallback = (false, none) := by
    cases media
    · rfl
    · exact absurd rfl hmedia
    · rfl
  refine ⟨hsend, ?_⟩
  rw [hsend]
  have hfail := process_completes_false_fails m rl now window limit pt
  simp only [message_worker_step]
  rw [hfail]
  simp [hretry]

/-- C5 witness: the amended behaviour at a concrete item with retries
remaining. -/
theorem forbidden_send_fails_and_requeues_witness :
    ((MediaResult.noMedia ≠ MediaResult.blocked) ∧
      msgNormal6.retry_count < msgNormal6.max_retries) ∧
    (process_new_message true (some "hello") .noMedia .raisesForbidden none
        = (false, none) ∧
      (message_worker_step initial_bot_metrics [] 5 60 30 msgNormal6 true
          (.completes (process_new_message true (some "hello") .noMedia
              .raisesForbidden none).1) 1).2.2
        = some { msgNormal6 with retry_count := 1 }) :=
  ⟨⟨by decide, by decide⟩,
   forbidden_send_fails_and_requeues "hello" none .noMedia initial_bot_metrics
     [] 5 60 30 msgNormal6 1 (by decide) (by decide)⟩
